import Mathlib

/-!
Shallow embedding of the live-location sampling loop of
`src/hooks/useLocationTracking.ts` (the `useLocationTracking` React hook).

The hook's observable state (`currentLocation`, `isTracking`, `error`,
`watchIdRef`, `intervalRef`) is modelled as an explicit `HookState` record.
Each operation of the hook (`startTracking`, `stopTracking`,
`updateLocation`, `updateDriverLocation`, `getCurrentPosition`,
`fetchCurrentLocation`, the `watchPosition` success/error callbacks, the
interval callback, and the realtime-subscription callback) is a pure Lean
function from the pre-state and an environment (sensor support, permission
capability, sensor outcomes, persistence-sink outcome) to the post-state
paired with the list of external calls it performs, in order.  JavaScript
numbers are modelled as rationals, timestamps as integers; a JS value that
may be `null`/`undefined` is an `Option`; a caught exception is an
`Except.error` that the caller inspects, never a Lean-level failure.
-/

/-- The `LocationData` interface of the hook: one timestamped fix. -/
structure LocationData where
  lat : ℚ
  lng : ℚ
  timestamp : ℤ
  address : Option String := none
deriving DecidableEq

/-- The hook instance state: the two `useState` slots `currentLocation`,
`isTracking`, `error` and the two refs `watchIdRef`, `intervalRef`. -/
structure HookState where
  currentLocation : Option LocationData
  isTracking : Bool
  error : Option String
  watchId : Option ℕ
  intervalId : Option ℕ
deriving DecidableEq

/-- The hook state at mount: everything null / false. -/
def initialHookState : HookState :=
  { currentLocation := none, isTracking := false, error := none,
    watchId := none, intervalId := none }

/-- `GeolocationPositionError` cause codes, plus `other` for a non-position
error object (which falls through every `case` of the `switch`). -/
inductive GeoErrorCode
  | permissionDenied
  | positionUnavailable
  | timeout
  | other
deriving DecidableEq

/-- Outcome of the underlying one-shot `navigator.geolocation.getCurrentPosition`. -/
inductive OneShotOutcome
  | success (fix : LocationData)
  | failure (code : GeoErrorCode)
deriving DecidableEq

/-- `PermissionState` as reported by `navigator.permissions.query`. -/
inductive PermissionState
  | granted
  | prompt
  | denied
deriving DecidableEq

/-- The permission-query capability: absent (`'permissions' in navigator`
is false), present but the query itself rejects, or present and reporting
a state. -/
inductive PermCapability
  | absent
  | queryFails
  | reports (state : PermissionState)
deriving DecidableEq

/-- The external environment a single activation / callback runs against. -/
structure Env where
  geolocationSupported : Bool
  permissions : PermCapability
  oneShot : OneShotOutcome
  sinkError : Option String
  watchHandle : ℕ
  intervalHandle : ℕ
deriving DecidableEq

/-- One external call performed by the hook, in program order. -/
inductive Call
  | permissionQuery
  | sensorOneShot
  | sensorWatch
  | sinkUpdate (driverId : String) (lat lng : ℚ)
deriving DecidableEq

/-- Whether a call is a persistence-sink call (`supabase.from(drivers).update`). -/
def isSinkCall : Call → Bool
  | Call.sinkUpdate _ _ _ => true
  | _ => false

/-- The persistence-sink calls among a trace. -/
def sinkCalls (cs : List Call) : List Call := cs.filter isSinkCall

/-- Error message thrown when `navigator.geolocation` is absent. -/
def geoUnsupportedMsg : String :=
  "Geolocation is not supported by this browser. Please use a modern browser with location support."

/-- One-shot `PERMISSION_DENIED` message (also the message of the dead
permission-precheck throw in `startTracking`). -/
def permissionBlockedMsg : String :=
  "Location permission is blocked. Please enable location access in your browser settings (address bar → location icon → Allow) and try again."

/-- One-shot `POSITION_UNAVAILABLE` message. -/
def positionUnavailableMsg : String :=
  "Location information is unavailable. Please check your device GPS/WiFi settings and ensure you are in an area with good signal."

/-- One-shot `TIMEOUT` message. -/
def timeoutMsg : String :=
  "Location request timed out. Please try again in an area with better GPS signal."

/-- One-shot default-case message. -/
def unknownGeoErrorMsg : String :=
  "An unknown error occurred while requesting location"

/-- Watch-error `PERMISSION_DENIED` message. -/
def permissionRevokedMsg : String :=
  "Location permission was revoked. Please re-enable location access to continue tracking."

/-- Watch-error `POSITION_UNAVAILABLE` message. -/
def signalLostMsg : String :=
  "Location signal lost. Please check your GPS/WiFi connection."

/-- Watch-error `TIMEOUT` message. -/
def trackingTimeoutMsg : String :=
  "Location tracking timed out. Retrying..."

/-- Watch-error initial / fall-through message. -/
def failedToTrackMsg : String :=
  "Failed to track location"

/-- `updateDriverLocation(lat, lng)`: no-op when `driverId` is falsy (the
empty string); otherwise performs one sink update and, if the sink reports
an error, records its message into the `error` slot (the `catch` branch).
It never throws to its caller: failures end in `setError`, hence the total
return type. -/
def updateDriverLocation (driverId : String) (sinkError : Option String) (lat lng : ℚ)
    (s : HookState) : HookState × List Call :=
  if driverId = "" then (s, [])
  else
    match sinkError with
    | none => (s, [Call.sinkUpdate driverId lat lng])
    | some msg => ({ s with error := some msg }, [Call.sinkUpdate driverId lat lng])

/-- `getCurrentPosition()`: rejects with the unsupported message when the
sensor capability is absent (performing no sensor call), otherwise performs
one sensor one-shot call and resolves with the fix or rejects with the
cause-selected message. -/
def getCurrentPosition (env : Env) : Except String LocationData × List Call :=
  if env.geolocationSupported = false then
    (Except.error geoUnsupportedMsg, [])
  else
    match env.oneShot with
    | OneShotOutcome.success fix => (Except.ok fix, [Call.sensorOneShot])
    | OneShotOutcome.failure GeoErrorCode.permissionDenied =>
        (Except.error permissionBlockedMsg, [Call.sensorOneShot])
    | OneShotOutcome.failure GeoErrorCode.positionUnavailable =>
        (Except.error positionUnavailableMsg, [Call.sensorOneShot])
    | OneShotOutcome.failure GeoErrorCode.timeout =>
        (Except.error timeoutMsg, [Call.sensorOneShot])
    | OneShotOutcome.failure GeoErrorCode.other =>
        (Except.error unknownGeoErrorMsg, [Call.sensorOneShot])

/-- The permission precheck of `startTracking`: when the capability is
present it performs one query call, but its result never affects control
flow — the `throw` on `denied` is inside the same `try` whose `catch`
swallows every exception of the block (`catch (permErr) { console.warn }`),
so the block always falls through to the one-shot request. -/
def permissionCheckCalls (p : PermCapability) : List Call :=
  match p with
  | PermCapability.absent => []
  | PermCapability.queryFails => [Call.permissionQuery]
  | PermCapability.reports _ => [Call.permissionQuery]

/-- `startTracking()`: clears the error, throws (into its own catch) when
the sensor capability is absent, runs the inert permission precheck,
requests one fix; on failure the catch sets the cause message and
`isTracking := false`; on success it stores the fix, dispatches it to the
sink, registers the watch subscription and the backup interval, and sets
`isTracking := true`.  Note there is no `driverId` guard anywhere on this
path. -/
def startTracking (driverId : String) (env : Env) (s : HookState) : HookState × List Call :=
  let s0 : HookState := { s with error := none }
  if env.geolocationSupported = false then
    ({ s0 with error := some geoUnsupportedMsg, isTracking := false }, [])
  else
    let permCalls := permissionCheckCalls env.permissions
    let gp := getCurrentPosition env
    match gp.1 with
    | Except.error msg =>
        ({ s0 with error := some msg, isTracking := false }, permCalls ++ gp.2)
    | Except.ok fix =>
        let s1 : HookState := { s0 with currentLocation := some fix }
        let upd := updateDriverLocation driverId env.sinkError fix.lat fix.lng s1
        let s2 : HookState := { upd.1 with watchId := some env.watchHandle }
        let s3 : HookState := { s2 with intervalId := some env.intervalHandle }
        let s4 : HookState := { s3 with isTracking := true }
        (s4, permCalls ++ gp.2 ++ upd.2 ++ [Call.sensorWatch])

/-- The `watchPosition` success callback: stores the new fix and dispatches
it once to the sink. -/
def watchPositionSuccess (driverId : String) (sinkError : Option String) (fix : LocationData)
    (s : HookState) : HookState × List Call :=
  let s1 : HookState := { s with currentLocation := some fix }
  updateDriverLocation driverId sinkError fix.lat fix.lng s1

/-- The message the `watchPosition` error callback selects by cause
(the `switch` has no `default`, so a non-matching code keeps the initial
string). -/
def watchErrorMessage (code : GeoErrorCode) : String :=
  match code with
  | GeoErrorCode.permissionDenied => permissionRevokedMsg
  | GeoErrorCode.positionUnavailable => signalLostMsg
  | GeoErrorCode.timeout => trackingTimeoutMsg
  | GeoErrorCode.other => failedToTrackMsg

/-- The `watchPosition` error callback: sets the cause-selected message and
unconditionally `setIsTracking(false)`; it touches neither ref, so both
handles survive it. -/
def watchPositionError (code : GeoErrorCode) (s : HookState) : HookState :=
  { s with error := some (watchErrorMessage code), isTracking := false }

/-- The backup-interval callback: requests one fix; a failure is caught and
only logged, a success is stored and dispatched to the sink once. -/
def intervalUpdate (driverId : String) (env : Env) (s : HookState) : HookState × List Call :=
  let gp := getCurrentPosition env
  match gp.1 with
  | Except.error _ => (s, gp.2)
  | Except.ok fix =>
      let s1 : HookState := { s with currentLocation := some fix }
      let upd := updateDriverLocation driverId env.sinkError fix.lat fix.lng s1
      (upd.1, gp.2 ++ upd.2)

/-- `stopTracking()`: clears the watch (if any) and the interval (if any),
nulls both refs, sets `isTracking := false` and clears the error. -/
def stopTracking (s : HookState) : HookState :=
  { s with watchId := none, intervalId := none, isTracking := false, error := none }

/-- `updateLocation(lat, lng)`: manual fix injection — stores the fix with
the current time and dispatches it to the sink, with no `isTracking`
precondition anywhere. -/
def updateLocation (driverId : String) (sinkError : Option String) (lat lng : ℚ) (now : ℤ)
    (s : HookState) : HookState × List Call :=
  let s1 : HookState := { s with currentLocation := some ⟨lat, lng, now, none⟩ }
  updateDriverLocation driverId sinkError lat lng s1

/-- A row of the `drivers` table as read back from the backend. -/
structure DriverRow where
  current_latitude : Option ℚ
  current_longitude : Option ℚ
  last_location_update : Option ℤ
deriving DecidableEq

/-- JavaScript truthiness of a nullable number (a rational here, so the
only falsy values are null and 0). -/
def numberTruthy : Option ℚ → Bool
  | none => false
  | some x => if x = 0 then false else true

/-- `fetchCurrentLocation()`: no-op for a falsy `driverId`; a query error
is caught and only logged; on success the fix is stored only when both
stored coordinates are truthy. -/
def fetchCurrentLocation (driverId : String) (queryResult : Except String DriverRow) (now : ℤ)
    (s : HookState) : HookState :=
  if driverId = "" then s
  else
    match queryResult with
    | Except.error _ => s
    | Except.ok data =>
        if numberTruthy data.current_latitude && numberTruthy data.current_longitude then
          let fix : LocationData :=
            ⟨data.current_latitude.getD 0, data.current_longitude.getD 0,
             data.last_location_update.getD now, none⟩
          { s with currentLocation := some fix }
        else s

/-- The realtime-subscription `postgres_changes` handler: stores
`payload.new` as the current fix only when both coordinates are truthy. -/
def realtimeUpdate (payloadNew : DriverRow) (now : ℤ) (s : HookState) : HookState :=
  if numberTruthy payloadNew.current_latitude && numberTruthy payloadNew.current_longitude then
    let fix : LocationData :=
      ⟨payloadNew.current_latitude.getD 0, payloadNew.current_longitude.getD 0,
       payloadNew.last_location_update.getD now, none⟩
    { s with currentLocation := some fix }
  else s

/-- An environment where everything succeeds: sensor present, no permission
capability, the one-shot resolves with the fix (12, 77, t = 1000), the sink
succeeds, and the two producer handles are 1 and 2. -/
def envAllOk : Env :=
  { geolocationSupported := true, permissions := PermCapability.absent,
    oneShot := OneShotOutcome.success ⟨12, 77, 1000, none⟩,
    sinkError := none, watchHandle := 1, intervalHandle := 2 }

/-- An environment where the permission capability reports `denied` and the
(consequently doomed) one-shot fails with `PERMISSION_DENIED`. -/
def envDenied : Env :=
  { geolocationSupported := true,
    permissions := PermCapability.reports PermissionState.denied,
    oneShot := OneShotOutcome.failure GeoErrorCode.permissionDenied,
    sinkError := none, watchHandle := 1, intervalHandle := 2 }

/-- A steady-state active session: fix stored, tracking, handles 1 and 2. -/
def activeState : HookState :=
  { currentLocation := some ⟨12, 77, 1000, none⟩, isTracking := true, error := none,
    watchId := some 1, intervalId := some 2 }

/-- An environment where the sensor capability is absent. -/
def envUnsupported : Env :=
  { geolocationSupported := false, permissions := PermCapability.absent,
    oneShot := OneShotOutcome.failure GeoErrorCode.other,
    sinkError := none, watchHandle := 1, intervalHandle := 2 }

/-- Claim C1, counterexample: with the sentinel subject id "all" (and the
empty id) in a fully working environment, `startTracking` does NOT
short-circuit: it invokes the sensor one-shot, and for "all" it even
dispatches a sink update keyed by the literal id "all". -/
theorem C1_short_circuit_counterexample :
    Call.sensorOneShot ∈ (startTracking "all" envAllOk initialHookState).2 ∧
    Call.sinkUpdate "all" 12 77 ∈ (startTracking "all" envAllOk initialHookState).2 ∧
    Call.sensorOneShot ∈ (startTracking "" envAllOk initialHookState).2 := by decide

/-- Claim C1 (amended): `startTracking` performs no subject-id
short-circuit at all.  Whenever the sensor is supported, the one-shot is
invoked for both the empty id and "all"; the only id guard sits inside
`updateDriverLocation`, so for the empty id no sink call is made, while for
"all" (a truthy string) the fix is dispatched to the sink under the id
"all". -/
theorem C1_amended_no_short_circuit (env : Env) (s : HookState)
    (h : env.geolocationSupported = true) :
    Call.sensorOneShot ∈ (startTracking "" env s).2 ∧
    Call.sensorOneShot ∈ (startTracking "all" env s).2 ∧
    (∀ c ∈ (startTracking "" env s).2, isSinkCall c = false) ∧
    (∀ fix, env.oneShot = OneShotOutcome.success fix →
      Call.sinkUpdate "all" fix.lat fix.lng ∈ (startTracking "all" env s).2) := by
  obtain ⟨gs, perms, one, sink, wh, ih⟩ := env
  simp only at h
  subst h
  cases one with
  | success fix =>
      cases perms <;> cases sink <;>
        simp [startTracking, getCurrentPosition, permissionCheckCalls,
              updateDriverLocation, isSinkCall]
  | failure code =>
      cases code <;> cases perms <;> cases sink <;>
        simp [startTracking, getCurrentPosition, permissionCheckCalls,
              updateDriverLocation, isSinkCall]

/-- Witness for C1 (amended) at the all-success environment. -/
theorem C1_amended_no_short_circuit_witness :
    Call.sensorOneShot ∈ (startTracking "" envAllOk initialHookState).2 ∧
    Call.sensorOneShot ∈ (startTracking "all" envAllOk initialHookState).2 ∧
    (∀ c ∈ (startTracking "" envAllOk initialHookState).2, isSinkCall c = false) ∧
    (∀ fix, envAllOk.oneShot = OneShotOutcome.success fix →
      Call.sinkUpdate "all" fix.lat fix.lng ∈ (startTracking "all" envAllOk initialHookState).2) :=
  C1_amended_no_short_circuit envAllOk initialHookState (by decide)

/-- Claim C2: when the permission capability reports `denied`, the
precheck's throw is swallowed by its own catch, so `startTracking` still
invokes the sensor one-shot request; the activation then fails only
because that (doomed) one-shot itself reports `PERMISSION_DENIED`, ending
with the blocked-permission message and an inactive session. -/
theorem C2_denied_precheck_dead :
    Call.sensorOneShot ∈ (startTracking "driver-42" envDenied initialHookState).2 ∧
    (startTracking "driver-42" envDenied initialHookState).1.error =
      some permissionBlockedMsg ∧
    (startTracking "driver-42" envDenied initialHookState).1.isTracking = false := by decide

/-- Claim C3, counterexample: after a successful activation, one
subscription-error event yields a state with `isTracking = false` while
both handles are still non-null — the both-null-when-inactive half of the
invariant is violated in an observable steady state. -/
theorem C3_invariant_counterexample :
    (watchPositionError GeoErrorCode.permissionDenied
      (startTracking "driver-42" envAllOk initialHookState).1).isTracking = false ∧
    (watchPositionError GeoErrorCode.permissionDenied
      (startTracking "driver-42" envAllOk initialHookState).1).watchId = some 1 ∧
    (watchPositionError GeoErrorCode.permissionDenied
      (startTracking "driver-42" envAllOk initialHookState).1).intervalId = some 2 := by decide

/-- Claim C3 (amended): after a successful `startTracking` both handles
are non-null and the session is active, and after `stopTracking` both are
null and the session inactive; but the subscription-error transition sets
`isTracking := false` while leaving both handles untouched, so the
invariant is not preserved by that transition. -/
theorem C3_amended_handle_invariant (driverId : String) (env : Env) (s : HookState)
    (fix : LocationData)
    (hsup : env.geolocationSupported = true)
    (hone : env.oneShot = OneShotOutcome.success fix) :
    ((startTracking driverId env s).1.isTracking = true ∧
     (startTracking driverId env s).1.watchId = some env.watchHandle ∧
     (startTracking driverId env s).1.intervalId = some env.intervalHandle) ∧
    (∀ t : HookState, (stopTracking t).isTracking = false ∧
      (stopTracking t).watchId = none ∧ (stopTracking t).intervalId = none) ∧
    (∀ code : GeoErrorCode, ∀ t : HookState,
      (watchPositionError code t).isTracking = false ∧
      (watchPositionError code t).watchId = t.watchId ∧
      (watchPositionError code t).intervalId = t.intervalId) := by
  obtain ⟨gs, perms, one, sink, wh, ih⟩ := env
  simp only at hsup hone
  subst hsup
  subst hone
  refine ⟨?_, ?_, ?_⟩
  · cases perms <;> cases sink <;>
      by_cases hd : driverId = "" <;>
        simp [startTracking, getCurrentPosition, permissionCheckCalls,
              updateDriverLocation, hd]
  · intro t
    simp [stopTracking]
  · intro code t
    simp [watchPositionError]

/-- Witness for C3 (amended) at the all-success environment. -/
theorem C3_amended_handle_invariant_witness :
    (((startTracking "driver-42" envAllOk initialHookState).1.isTracking = true ∧
      (startTracking "driver-42" envAllOk initialHookState).1.watchId = some envAllOk.watchHandle ∧
      (startTracking "driver-42" envAllOk initialHookState).1.intervalId = some envAllOk.intervalHandle) ∧
     (∀ t : HookState, (stopTracking t).isTracking = false ∧
       (stopTracking t).watchId = none ∧ (stopTracking t).intervalId = none) ∧
     (∀ code : GeoErrorCode, ∀ t : HookState,
       (watchPositionError code t).isTracking = false ∧
       (watchPositionError code t).watchId = t.watchId ∧
       (watchPositionError code t).intervalId = t.intervalId)) :=
  C3_amended_handle_invariant "driver-42" envAllOk initialHookState
    ⟨12, 77, 1000, none⟩ (by decide) (by decide)

/-- Claim C4, counterexample: the `TIMEOUT` cause also marks the session
inactive — `setIsTracking(false)` sits after the `switch`, outside any
cause test. -/
theorem C4_timeout_counterexample :
    (watchPositionError GeoErrorCode.timeout activeState).isTracking = false ∧
    (watchPositionError GeoErrorCode.timeout activeState).error =
      some trackingTimeoutMsg := by decide

/-- Claim C4 (amended): every subscription-error event sets the session
error to the cause-selected human-readable message and unconditionally
marks the session inactive — for `TIMEOUT` as well — while leaving the
poll timer (and the watch handle) in place until explicit deactivation. -/
theorem C4_amended_error_transition (code : GeoErrorCode) (s : HookState) :
    (watchPositionError code s).error = some (watchErrorMessage code) ∧
    (watchPositionError code s).isTracking = false ∧
    (watchPositionError code s).watchId = s.watchId ∧
    (watchPositionError code s).intervalId = s.intervalId ∧
    watchErrorMessage GeoErrorCode.permissionDenied = permissionRevokedMsg ∧
    watchErrorMessage GeoErrorCode.positionUnavailable = signalLostMsg ∧
    watchErrorMessage GeoErrorCode.timeout = trackingTimeoutMsg := by
  simp [watchPositionError, watchErrorMessage]

/-- Claim C5: with the sensor capability absent, `startTracking` ends with
the unsupported-sensor message, `isTracking = false`, both handles exactly
as before the call, and no external call at all. -/
theorem C5_sensor_unsupported (driverId : String) (env : Env) (s : HookState)
    (h : env.geolocationSupported = false) :
    (startTracking driverId env s).1.error = some geoUnsupportedMsg ∧
    (startTracking driverId env s).1.isTracking = false ∧
    (startTracking driverId env s).1.watchId = s.watchId ∧
    (startTracking driverId env s).1.intervalId = s.intervalId ∧
    (startTracking driverId env s).2 = [] := by
  simp [startTracking, h]

/-- Witness for C5 at a sensor-absent environment. -/
theorem C5_sensor_unsupported_witness :
    (startTracking "driver-42" envUnsupported initialHookState).1.error =
      some geoUnsupportedMsg ∧
    (startTracking "driver-42" envUnsupported initialHookState).1.isTracking = false ∧
    (startTracking "driver-42" envUnsupported initialHookState).1.watchId =
      initialHookState.watchId ∧
    (startTracking "driver-42" envUnsupported initialHookState).1.intervalId =
      initialHookState.intervalId ∧
    (startTracking "driver-42" envUnsupported initialHookState).2 = [] :=
  C5_sensor_unsupported "driver-42" envUnsupported initialHookState (by decide)

/-- Claim C6: for a non-empty subject id, one invocation of the watch
success callback stores the fix and performs exactly one sink call with
that fix, and one invocation of the interval callback whose one-shot
resolves does the same — whatever the sink outcome. -/
theorem C6_fix_dispatched_exactly_once (driverId : String) (sinkError : Option String)
    (fix : LocationData) (s : HookState) (env : Env) (t : HookState)
    (hd : driverId ≠ "")
    (hsup : env.geolocationSupported = true)
    (hone : env.oneShot = OneShotOutcome.success fix) :
    (watchPositionSuccess driverId sinkError fix s).1.currentLocation = some fix ∧
    sinkCalls (watchPositionSuccess driverId sinkError fix s).2 =
      [Call.sinkUpdate driverId fix.lat fix.lng] ∧
    (intervalUpdate driverId env t).1.currentLocation = some fix ∧
    sinkCalls (intervalUpdate driverId env t).2 =
      [Call.sinkUpdate driverId fix.lat fix.lng] := by
  obtain ⟨gs, perms, one, sink, wh, ih⟩ := env
  simp only at hsup hone
  subst hsup
  subst hone
  cases sinkError <;> cases sink <;>
    simp [watchPositionSuccess, intervalUpdate, getCurrentPosition,
          updateDriverLocation, sinkCalls, isSinkCall, hd]

/-- Witness for C6 at the all-success environment. -/
theorem C6_fix_dispatched_exactly_once_witness :
    (watchPositionSuccess "driver-42" none ⟨12, 77, 1000, none⟩ activeState).1.currentLocation =
      some ⟨12, 77, 1000, none⟩ ∧
    sinkCalls (watchPositionSuccess "driver-42" none ⟨12, 77, 1000, none⟩ activeState).2 =
      [Call.sinkUpdate "driver-42" (⟨12, 77, 1000, none⟩ : LocationData).lat
        (⟨12, 77, 1000, none⟩ : LocationData).lng] ∧
    (intervalUpdate "driver-42" envAllOk activeState).1.currentLocation =
      some ⟨12, 77, 1000, none⟩ ∧
    sinkCalls (intervalUpdate "driver-42" envAllOk activeState).2 =
      [Call.sinkUpdate "driver-42" (⟨12, 77, 1000, none⟩ : LocationData).lat
        (⟨12, 77, 1000, none⟩ : LocationData).lng] :=
  C6_fix_dispatched_exactly_once "driver-42" none ⟨12, 77, 1000, none⟩ activeState
    envAllOk activeState (by decide) (by decide) (by decide)

/-- Claim C7: a persistence-sink failure sets the session error to the
sink's message, changes nothing else of the observable state (in
particular `isTracking` keeps its value), and a subsequent fix is still
stored and dispatched normally; `updateDriverLocation` is a total function
into states, so the failure is never raised to the caller. -/
theorem C7_sink_failure_recovered (driverId : String) (msg : String) (lat lng : ℚ)
    (s : HookState) (hd : driverId ≠ "") :
    (updateDriverLocation driverId (some msg) lat lng s).1.error = some msg ∧
    (updateDriverLocation driverId (some msg) lat lng s).1.isTracking = s.isTracking ∧
    (updateDriverLocation driverId (some msg) lat lng s).1.currentLocation = s.currentLocation ∧
    (updateDriverLocation driverId (some msg) lat lng s).1.watchId = s.watchId ∧
    (updateDriverLocation driverId (some msg) lat lng s).1.intervalId = s.intervalId ∧
    (∀ fix : LocationData, ∀ sinkError2 : Option String,
      (watchPositionSuccess driverId sinkError2 fix
        (updateDriverLocation driverId (some msg) lat lng s).1).1.currentLocation = some fix ∧
      sinkCalls (watchPositionSuccess driverId sinkError2 fix
        (updateDriverLocation driverId (some msg) lat lng s).1).2 =
          [Call.sinkUpdate driverId fix.lat fix.lng]) := by
  have h6 : ∀ fix : LocationData, ∀ sinkError2 : Option String,
      (watchPositionSuccess driverId sinkError2 fix
        (updateDriverLocation driverId (some msg) lat lng s).1).1.currentLocation = some fix ∧
      sinkCalls (watchPositionSuccess driverId sinkError2 fix
        (updateDriverLocation driverId (some msg) lat lng s).1).2 =
          [Call.sinkUpdate driverId fix.lat fix.lng] := by
    intro fix sinkError2
    cases sinkError2 <;>
      simp [updateDriverLocation, watchPositionSuccess, sinkCalls, isSinkCall, hd]
  refine ⟨?_, ?_, ?_, ?_, ?_, h6⟩ <;> simp [updateDriverLocation, hd]

/-- Witness for C7 at a concrete failing sink. -/
theorem C7_sink_failure_recovered_witness :
    (updateDriverLocation "driver-42" (some "network error") 12 77 activeState).1.error =
      some "network error" ∧
    (updateDriverLocation "driver-42" (some "network error") 12 77 activeState).1.isTracking =
      activeState.isTracking ∧
    (updateDriverLocation "driver-42" (some "network error") 12 77 activeState).1.currentLocation =
      activeState.currentLocation ∧
    (updateDriverLocation "driver-42" (some "network error") 12 77 activeState).1.watchId =
      activeState.watchId ∧
    (updateDriverLocation "driver-42" (some "network error") 12 77 activeState).1.intervalId =
      activeState.intervalId ∧
    (∀ fix : LocationData, ∀ sinkError2 : Option String,
      (watchPositionSuccess "driver-42" sinkError2 fix
        (updateDriverLocation "driver-42" (some "network error") 12 77 activeState).1).1.currentLocation =
          some fix ∧
      sinkCalls (watchPositionSuccess "driver-42" sinkError2 fix
        (updateDriverLocation "driver-42" (some "network error") 12 77 activeState).1).2 =
          [Call.sinkUpdate "driver-42" fix.lat fix.lng]) :=
  C7_sink_failure_recovered "driver-42" "network error" 12 77 activeState (by decide)

/-- Claim C8: `updateLocation` while the session is inactive stores the
manual fix and performs a sink call for it, with no `isTracking`
precondition anywhere on the path. -/
theorem C8_manual_update_while_inactive (driverId : String) (sinkError : Option String)
    (lat lng : ℚ) (now : ℤ) (s : HookState)
    (hd : driverId ≠ "") (_hinactive : s.isTracking = false) :
    (updateLocation driverId sinkError lat lng now s).1.currentLocation =
      some ⟨lat, lng, now, none⟩ ∧
    Call.sinkUpdate driverId lat lng ∈ (updateLocation driverId sinkError lat lng now s).2 := by
  cases sinkError <;> simp [updateLocation, updateDriverLocation, hd]

/-- Witness for C8 at the scenario input of the spec (12.0, 77.0). -/
theorem C8_manual_update_while_inactive_witness :
    (updateLocation "driver-42" none 12 77 5000 initialHookState).1.currentLocation =
      some ⟨12, 77, 5000, none⟩ ∧
    Call.sinkUpdate "driver-42" 12 77 ∈
      (updateLocation "driver-42" none 12 77 5000 initialHookState).2 :=
  C8_manual_update_while_inactive "driver-42" none 12 77 5000 initialHookState
    (by decide) (by decide)

/-- Claim C9: whenever the activation fails — sensor absent or one-shot
failure with any cause — the current fix and both handles are exactly what
they were before the call and the watch subscription is never started. -/
theorem C9_activation_failure_atomic (driverId : String) (env : Env) (s : HookState)
    (h : env.geolocationSupported = false ∨
         ∃ code, env.oneShot = OneShotOutcome.failure code) :
    (startTracking driverId env s).1.currentLocation = s.currentLocation ∧
    (startTracking driverId env s).1.watchId = s.watchId ∧
    (startTracking driverId env s).1.intervalId = s.intervalId ∧
    Call.sensorWatch ∉ (startTracking driverId env s).2 := by
  obtain ⟨gs, perms, one, sink, wh, ih⟩ := env
  rcases h with h | ⟨code, hc⟩
  · simp only at h
    subst h
    simp [startTracking]
  · simp only at hc
    subst hc
    cases gs <;> cases code <;> cases perms <;>
      simp [startTracking, getCurrentPosition, permissionCheckCalls]

/-- Witness for C9 at the denied environment (one-shot failure branch). -/
theorem C9_activation_failure_atomic_witness :
    (startTracking "driver-42" envDenied activeState).1.currentLocation =
      activeState.currentLocation ∧
    (startTracking "driver-42" envDenied activeState).1.watchId = activeState.watchId ∧
    (startTracking "driver-42" envDenied activeState).1.intervalId = activeState.intervalId ∧
    Call.sensorWatch ∉ (startTracking "driver-42" envDenied activeState).2 :=
  C9_activation_failure_atomic "driver-42" envDenied activeState
    (Or.inr ⟨GeoErrorCode.permissionDenied, rfl⟩)

/-- Claim C10: a stored row whose latitude or longitude is exactly 0 is
falsy at the read-back gate, so neither the mount fetch nor the realtime
handler changes the state at all on such a row. -/
theorem C10_zero_coordinate_drop (driverId : String) (row : DriverRow) (now : ℤ)
    (s : HookState)
    (h : row.current_latitude = some 0 ∨ row.current_longitude = some 0) :
    fetchCurrentLocation driverId (Except.ok row) now s = s ∧
    realtimeUpdate row now s = s := by
  obtain ⟨la, ln, ts⟩ := row
  rcases h with h | h <;> simp only at h <;> subst h <;>
    simp [fetchCurrentLocation, realtimeUpdate, numberTruthy]

/-- Witness for C10 at a row with latitude 0 and a truthy longitude. -/
theorem C10_zero_coordinate_drop_witness :
    fetchCurrentLocation "driver-42"
      (Except.ok ⟨some 0, some 77, some 1000⟩) 2000 activeState = activeState ∧
    realtimeUpdate ⟨some 0, some 77, some 1000⟩ 2000 activeState = activeState :=
  C10_zero_coordinate_drop "driver-42" ⟨some 0, some 77, some 1000⟩ 2000 activeState
    (Or.inl rfl)
